import Mathlib

/-!
Verification development for the timeline-reconstruction engine of the
MaintainenceTools repository: a shallow embedding of
`logs-xray-status-duration/xray_scan_timeline_traceid.py` and
`scan-status-timeline/xray_scan_timeline_traceid.py`, followed by theorems
about the embedded definitions.

Modelling conventions:
* Python strings are Lean `String`s (sequences of characters); `a in b` is
  the executable substring test `substr`.
* `datetime` values are `Timestamp` records; `datetime` comparison is
  field-lexicographic, embedded as comparison of the injective monotone
  `Timestamp.key` (valid field ranges are guaranteed for every timestamp
  the parser produces).
* `extract_time` is fallible: `re.match` failure is `Except.ok none`
  (Python `None`), while a shape-matching prefix whose fields do not form
  a valid calendar date-time makes Python's `strptime` raise `ValueError`,
  embedded as `Except.error ()`.  The scanning loops only ever call
  `extract_time` on the happy path, projected by `extractTimeOpt`; general
  theorems about the loops therefore carry a `lineSafe` hypothesis
  (ASCII text, no raising line), the domain on which the embedding and the
  Python program agree (Python's `str.lower`, `str.strip` and `\d` differ
  from the ASCII model only outside this domain).
-/

set_option maxRecDepth 16384

/-- Character is an ASCII decimal digit, the ASCII case of Python's `\d`. -/
def isDigitCh (c : Char) : Bool := 48 ≤ c.toNat && c.toNat ≤ 57

/-- Numeric value of an ASCII digit character. -/
def digitVal (c : Char) : Nat := c.toNat - 48

/-- Decimal number denoted by a digit list, as Python `int` on a digit string. -/
def digitsToNat (cs : List Char) : Nat := cs.foldl (fun n c => n * 10 + digitVal c) 0

/-- Captured fields of the leading regex
`(\d{4}-\d{2}-\d{2}T\d{2}:\d{2}:\d{2})\.(\d+)Z` of `extract_time`:
the six date-time fields of group 1 and the raw fractional digits of group 2. -/
structure RegexShape where
  year : Nat
  month : Nat
  day : Nat
  hour : Nat
  minute : Nat
  second : Nat
  frac : List Char
deriving DecidableEq, Repr

/-- Anchored match of `(\d{4}-\d{2}-\d{2}T\d{2}:\d{2}:\d{2})\.(\d+)Z` against the
start of a line (`re.match`).  The greedy `(\d+)` followed by `Z` matches exactly
when the maximal digit run after the dot is nonempty and followed by `Z`. -/
def matchShape (cs : List Char) : Option RegexShape :=
  match cs with
  | y1 :: y2 :: y3 :: y4 :: c1 :: m1 :: m2 :: c2 :: d1 :: d2 :: c3 ::
    h1 :: h2 :: c4 :: n1 :: n2 :: c5 :: s1 :: s2 :: c6 :: rest =>
    if isDigitCh y1 && isDigitCh y2 && isDigitCh y3 && isDigitCh y4 &&
       c1 == '-' && isDigitCh m1 && isDigitCh m2 && c2 == '-' &&
       isDigitCh d1 && isDigitCh d2 && c3 == 'T' &&
       isDigitCh h1 && isDigitCh h2 && c4 == ':' &&
       isDigitCh n1 && isDigitCh n2 && c5 == ':' &&
       isDigitCh s1 && isDigitCh s2 && c6 == '.' then
      let frac := rest.takeWhile isDigitCh
      match frac, rest.drop frac.length with
      | [], _ => none
      | f1 :: fs, 'Z' :: _ =>
        some ⟨digitsToNat [y1, y2, y3, y4], digitsToNat [m1, m2], digitsToNat [d1, d2],
              digitsToNat [h1, h2], digitsToNat [n1, n2], digitsToNat [s1, s2], f1 :: fs⟩
      | _ :: _, _ => none
    else none
  | _ => none

/-- Gregorian leap-year rule used by Python's `datetime`. -/
def isLeap (y : Nat) : Bool := (y % 4 == 0 && y % 100 != 0) || y % 400 == 0

/-- Number of days of a month, as validated by `datetime`. -/
def daysInMonth (y m : Nat) : Nat :=
  if m = 2 then (if isLeap y then 29 else 28)
  else if m = 4 || m = 6 || m = 9 || m = 11 then 30 else 31

/-- Field ranges under which `datetime.strptime("%Y-%m-%dT%H:%M:%S")` succeeds on
the captured group; outside them it raises `ValueError`. -/
def validDate (sh : RegexShape) : Bool :=
  decide (1 ≤ sh.year) && decide (1 ≤ sh.month) && decide (sh.month ≤ 12) &&
  decide (1 ≤ sh.day) && decide (sh.day ≤ daysInMonth sh.year sh.month) &&
  decide (sh.hour ≤ 23) && decide (sh.minute ≤ 59) && decide (sh.second ≤ 59)

/-- Millisecond value `int(m.group(2)[:3].ljust(3, '0'))`: first three fractional
digits, right-padded with zeros when fewer than three are present. -/
def ms3 (sh : RegexShape) : Nat :=
  let f3 := sh.frac.take 3
  digitsToNat (f3 ++ List.replicate (3 - f3.length) '0')

/-- Embedded `datetime` value; `microsecond` is the Python microsecond field. -/
structure Timestamp where
  year : Nat
  month : Nat
  day : Nat
  hour : Nat
  minute : Nat
  second : Nat
  microsecond : Nat
deriving DecidableEq, Repr

/-- Timestamp built by `extract_time` on a match: the parsed date-time with
`dt.replace(microsecond=ms*1000)`. -/
def mkTs (sh : RegexShape) : Timestamp :=
  ⟨sh.year, sh.month, sh.day, sh.hour, sh.minute, sh.second, ms3 sh * 1000⟩

/-- Embedding of `extract_time` (identical in both scripts).  `Except.ok none`
is Python `None` (no regex match); `Except.error ()` is the `ValueError` that
`strptime` raises when the shape matches but the fields are no valid date-time. -/
def extract_time (line : String) : Except Unit (Option Timestamp) :=
  match matchShape line.toList with
  | none => Except.ok none
  | some sh => if validDate sh then Except.ok (some (mkTs sh)) else Except.error ()

/-- Happy-path projection of `extract_time` used inside the scanning loops;
it agrees with the Python call on every line satisfying `lineSafe`. -/
def extractTimeOpt (line : String) : Option Timestamp :=
  match extract_time line with
  | Except.ok o => o
  | Except.error _ => none

/-- Injective monotone encoding of a valid timestamp; comparing keys is the
field-lexicographic `datetime` comparison on the parser's output range. -/
def Timestamp.key (t : Timestamp) : Nat :=
  t.microsecond +
    1000000 * (t.second + 60 * (t.minute + 60 * (t.hour + 24 * (t.day + 32 * (t.month + 13 * t.year)))))

/-- Needle occurs at the head of the haystack. -/
def leadsWith : List Char → List Char → Bool
  | [], _ => true
  | _ :: _, [] => false
  | a :: as, b :: bs => a == b && leadsWith as bs

/-- Needle occurs somewhere in the haystack. -/
def occursIn : List Char → List Char → Bool
  | needle, [] => needle.isEmpty
  | needle, c :: rest => leadsWith needle (c :: rest) || occursIn needle rest

/-- Embedding of Python's substring test `needle in hay`. -/
def substr (needle hay : String) : Bool := occursIn needle.toList hay.toList

/-- Embedding of Python's `str.lower` on ASCII text. -/
def lowerStr (s : String) : String := String.mk (s.toList.map Char.toLower)

/-- ASCII whitespace stripped by Python's `str.strip`. -/
def isPyWs (c : Char) : Bool :=
  c == ' ' || c == '\t' || c == '\n' || c == '\r' || c == '\x0b' || c == '\x0c'

/-- Embedding of Python's `str.strip` on ASCII text. -/
def strip (s : String) : String :=
  String.mk (((s.toList.dropWhile isPyWs).reverse.dropWhile isPyWs).reverse)

/-- Embedding of Python's `s[-120:]`: the last 120 characters, or the whole
string when it is shorter. -/
def last120 (s : String) : String :=
  String.mk (s.toList.drop (s.toList.length - 120))

/-- String consists of ASCII characters only. -/
def asciiStr (s : String) : Bool := s.toList.all (fun c => decide (c.toNat ≤ 127))

/-- Domain on which the embedding agrees with the Python program: ASCII text on
which `extract_time` does not raise. -/
def lineSafe (l : String) : Bool :=
  asciiStr l &&
    (match extract_time l with
     | Except.error _ => false
     | Except.ok _ => true)

/-- Ordered `ca_end_patterns` table of `parse_timeline`, identical in both
scripts: `(substring-A, substring-B, status-tag)` triples in priority order. -/
def ca_end_patterns : List (String × String × String) :=
  [("contextual_analysis", "from status: SCANNING to status: DONE", "DONE"),
   ("contextual_analysis", "from status: SCANNING to status: FAILED", "FAILED"),
   ("scan_build_or_rb", "Build not scanned for CA. All artifacts were skipped", "SKIP"),
   ("cve_applicability_service", "Package type Pypi is not supported", "SKIP"),
   ("cve_applicability_service", "No vulnerable components found for applicability scan", "SKIP")]

/-- Ordered `exposure_end_patterns` table of `parse_timeline`, identical in both
scripts. -/
def exposure_end_patterns : List (String × String × String) :=
  [("exposures", "from status: SCANNING to status: DONE", "DONE"),
   ("exposures_execution_worker", "Job failed", "FAILED"),
   ("scan_status_service", "from status: SCANNING to status: FAILED", "FAILED"),
   ("exposures_service", "Handling job failure", "FAILED"),
   ("exposures_service", "Exposures scan is enabled but no categories were selected for scan. Scan aborted", "ABORTED")]

/-- Simple-rule scan in collector order: the first line containing both
substrings and bearing a parseable leading timestamp yields the timestamp;
lines matching the substrings but lacking a timestamp are passed over
(the `break` sits under `if t:`). -/
def firstTimed (s1 s2 : String) (lines : List String) : Option Timestamp :=
  lines.findSome? (fun l => if substr s1 l && substr s2 l then extractTimeOpt l else none)

/-- Simple-rule scan in reverse collector order (`reversed(lines)`), used for
every `_end` key and inside the pattern-table loops. -/
def lastTimed (s1 s2 : String) (lines : List String) : Option Timestamp :=
  firstTimed s1 s2 lines.reverse

/-- Pattern-table loop of `parse_timeline` for `ca_end` and `exposure_end`:
iterate the triples in priority order; for each triple scan all lines in
reverse collector order; the first triple yielding a timed match fixes the
timestamp and the status tag.  (`ca_end` tests the substrings through
`re.search(re.escape(...))`, which is the same substring test.) -/
def patSearch : List (String × String × String) → List String → Option (Timestamp × String)
  | [], _ => none
  | (s1, s2, tag) :: rest, lines =>
    match lastTimed s1 s2 lines with
    | some t => some (t, tag)
    | none => patSearch rest lines

/-- Keywords of the fallback suspicious-line scan of `parse_timeline`. -/
def suspiciousKeys : List String := ["fail", "error", "warn", "skip", "missing", "retry"]

/-- Line mentions a suspicious keyword (lower-cased test). -/
def suspicious (l : String) : Bool := suspiciousKeys.any (fun k => substr k (lowerStr l))

/-- Fallback suspicious-line value of `parse_timeline` for one phase: among the
lines containing the phase name (lower-cased), the last one in collector order
with a suspicious keyword, stripped and truncated to its final 120 characters;
the literal "INCOMPLETE" when there is none. -/
def debugFor (phase : String) (lines : List String) : String :=
  match (lines.filter (fun l => substr phase (lowerStr l))).reverse.find? suspicious with
  | some l => last120 (strip l)
  | none => "INCOMPLETE"

/-- The `result` dictionary of `parse_timeline`: one optional timestamp per
phase-rule key, plus the optional `ca_end_status` / `exposure_end_status` tags. -/
structure ParseResult where
  indexer_start : Option Timestamp
  indexer_end : Option Timestamp
  persist_start : Option Timestamp
  persist_end : Option Timestamp
  analysis_start : Option Timestamp
  analysis_end : Option Timestamp
  ca_start : Option Timestamp
  ca_end : Option Timestamp
  exposure_start : Option Timestamp
  exposure_end : Option Timestamp
  ca_end_status : Option String
  exposure_end_status : Option String
deriving DecidableEq, Repr

/-- The `debug_status` dictionary of `parse_timeline`: the fallback
suspicious-line value of each of the five phases. -/
structure DebugStatus where
  indexer : String
  persist : String
  analysis : String
  ca : String
  exposure : String
deriving DecidableEq, Repr

/-- The `ca_end` search including the debug-mode branch: when the main loop
found nothing and debug mode is on, the source prints diagnostics and runs the
identical pattern search once more (so the branch never changes the result). -/
def caEndWithDebug (lines : List String) (debug_mode : Bool) : Option (Timestamp × String) :=
  let r := patSearch ca_end_patterns lines
  if debug_mode then
    match r with
    | some x => some x
    | none => patSearch ca_end_patterns lines
  else r

/-- Embedding of `parse_timeline` of
`logs-xray-status-duration/xray_scan_timeline_traceid.py` (the `artifact`
parameter of the source is unused in its body and is omitted).  The dead
local `keywords` dictionary of the source is not modelled. -/
def parse_timeline (lines : List String) (debug_mode : Bool) : ParseResult × DebugStatus :=
  let caE := caEndWithDebug lines debug_mode
  let expE := patSearch exposure_end_patterns lines
  (⟨firstTimed "index_worker" "processing m" lines,
    lastTimed "index_worker" "has completed to process message" lines,
    firstTimed "persist_worker" "is processing message from persist" lines,
    lastTimed "persist_worker" "has completed to process message" lines,
    firstTimed "analysis_worker" "processing msg" lines,
    lastTimed "analysis_worker" "has completed to analyze the component" lines,
    firstTimed "cve_applicability_service" "Starting CheckApplicability for url" lines,
    caE.map Prod.fst,
    firstTimed "exposures_service" "Exposures scan started after SCA scan" lines,
    expE.map Prod.fst,
    caE.map Prod.snd,
    expE.map Prod.snd⟩,
   ⟨debugFor "indexer" lines, debugFor "persist" lines, debugFor "analysis" lines,
    debugFor "ca" lines, debugFor "exposure" lines⟩)

/-- Embedding of `parse_timeline` of
`scan-status-timeline/xray_scan_timeline_traceid.py`; its only textual
differences from the other copy are the `indexer_start` pattern
`("index_worker", "Start processing msg")` and the `analysis_start` pattern
`("analysis_worker", "processing msg for artifact")`. -/
def parse_timelineSST (lines : List String) (debug_mode : Bool) : ParseResult × DebugStatus :=
  let caE := caEndWithDebug lines debug_mode
  let expE := patSearch exposure_end_patterns lines
  (⟨firstTimed "index_worker" "Start processing msg" lines,
    lastTimed "index_worker" "has completed to process message" lines,
    firstTimed "persist_worker" "is processing message from persist" lines,
    lastTimed "persist_worker" "has completed to process message" lines,
    firstTimed "analysis_worker" "processing msg for artifact" lines,
    lastTimed "analysis_worker" "has completed to analyze the component" lines,
    firstTimed "cve_applicability_service" "Starting CheckApplicability for url" lines,
    caE.map Prod.fst,
    firstTimed "exposures_service" "Exposures scan started after SCA scan" lines,
    expE.map Prod.fst,
    caE.map Prod.snd,
    expE.map Prod.snd⟩,
   ⟨debugFor "indexer" lines, debugFor "persist" lines, debugFor "analysis" lines,
    debugFor "ca" lines, debugFor "exposure" lines⟩)

/-- Embedding of `determine_status`.  `status_val` stands for
`result[status_key] if status_key in result else` absent (the overall call
passes `status_key=None`, never a key of `result`); `debug_status=None` and the
empty string are both falsy under `if debug_status:`. -/
def determine_status (start_time end_time : Option Timestamp)
    (status_val : Option String) (debug_status : Option String) : String :=
  match start_time with
  | none => "NOT_STARTED"
  | some _ =>
    match end_time with
    | none =>
      match debug_status with
      | none => "INCOMPLETE"
      | some d =>
        if d = "" then "INCOMPLETE"
        else
          let s := lowerStr d
          if substr "fail" s || substr "failed" s then "FAILED"
          else if substr "warn" s || substr "skip" s || substr "not found" s then "WARNING"
          else if substr "abort" s then "ABORTED"
          else "INCOMPLETE"
    | some _ =>
      match status_val with
      | some tag =>
        if tag = "FAILED" then "FAILED"
        else if tag = "SKIP" then "NOT_SUPPORTED"
        else if tag = "ABORTED" then "ABORTED"
        else "DONE"
      | none => "DONE"

/-- One step of the `overall_start` accumulation of `generate_json_output`:
`if start_time and (not overall_start or start_time < overall_start)`. -/
def updMin (acc x : Option Timestamp) : Option Timestamp :=
  match x with
  | none => acc
  | some t =>
    match acc with
    | none => some t
    | some a => if t.key < a.key then some t else acc

/-- One step of the `overall_end` accumulation of `generate_json_output`:
`if end_time and (not overall_end or end_time > overall_end)`. -/
def updMax (acc x : Option Timestamp) : Option Timestamp :=
  match x with
  | none => acc
  | some t =>
    match acc with
    | none => some t
    | some a => if a.key < t.key then some t else acc

/-- Overall start of `generate_json_output`: the phase starts folded in phase
order through the `<` comparison. -/
def overallStart (r : ParseResult) : Option Timestamp :=
  updMin (updMin (updMin (updMin (updMin none r.indexer_start) r.persist_start)
    r.analysis_start) r.ca_start) r.exposure_start

/-- Overall end of `generate_json_output`: the phase ends folded in phase order
through the `>` comparison. -/
def overallEnd (r : ParseResult) : Option Timestamp :=
  updMax (updMax (updMax (updMax (updMax none r.indexer_end) r.persist_end)
    r.analysis_end) r.ca_end) r.exposure_end

/-- Overall status of `generate_json_output`, line 312 of the source:
`determine_status(overall_start, overall_end, None, result)` — no status tag
and no fallback text are passed. -/
def overall_status (r : ParseResult) : String :=
  determine_status (overallStart r) (overallEnd r) none none

/-- Character allowed inside a bracketed correlation token: `[a-f0-9]`. -/
def isLowerHex (c : Char) : Bool := (97 ≤ c.toNat && c.toNat ≤ 102) || isDigitCh c

/-- Try to match `\[([a-f0-9]{16})\]` at the head of the character list,
returning the group. -/
def tryTok (cs : List Char) : Option String :=
  match cs with
  | '[' :: rest =>
    let h := rest.take 16
    if h.length = 16 && h.all isLowerHex &&
       (match rest.drop 16 with
        | ']' :: _ => true
        | _ => false) then
      some (String.mk h)
    else none
  | _ => none

/-- Fuelled scanner behind `extractTokens`; structural recursion on the fuel
keeps the definition kernel-reducible.  Every step consumes at least one
character and exactly one unit of fuel, so fuel `cs.length` never runs dry. -/
def extractTokensFuel : Nat → List Char → List String
  | 0, _ => []
  | _ + 1, [] => []
  | fuel + 1, c :: rest =>
    match tryTok (c :: rest) with
    | some tok => tok :: extractTokensFuel fuel (rest.drop 17)
    | none => extractTokensFuel fuel rest

/-- All groups of `re.findall(r'\[([a-f0-9]{16})\]', line)`: non-overlapping
matches scanned left to right, resuming after each match. -/
def extractTokens (cs : List Char) : List String := extractTokensFuel cs.length cs

/-- Set insertion in first-seen order, modelling `trace_ids.add(m)`;
membership is all the theorems use (Python set iteration order is
unspecified). -/
def insertNew (acc : List String) (x : String) : List String :=
  if x ∈ acc then acc else acc ++ [x]

/-- Embedding of `find_trace_ids`: the corpus is the list of lines of all
`.log` files in walk order (the directory walk itself is unmodelled I/O glue);
every line containing the artifact identifier contributes all its bracketed
16-lower-hex tokens. -/
def find_trace_ids (corpus : List String) (artifact : String) : List String :=
  corpus.foldl
    (fun acc l =>
      if substr artifact l then (extractTokens l.toList).foldl insertNew acc else acc)
    []

/-- The per-token skip test of the `__main__` loop:
`any(result.get(f"{phase}_start") or result.get(f"{phase}_end") for phase in ...)`. -/
def hasEvidence (r : ParseResult) : Bool :=
  r.indexer_start.isSome || r.indexer_end.isSome ||
  r.persist_start.isSome || r.persist_end.isSome ||
  r.analysis_start.isSome || r.analysis_end.isSome ||
  r.ca_start.isSome || r.ca_end.isSome ||
  r.exposure_start.isSome || r.exposure_end.isSome

/-- Shape of the JSON emission of the `__main__` block: a single unwrapped
object or an array.  A document is determined by its parse data, so documents
are represented by their `(result, debug_status)` pairs. -/
inductive EmitShape where
  | single (doc : ParseResult × DebugStatus)
  | array (docs : List (ParseResult × DebugStatus))
deriving DecidableEq, Repr

/-- The `all_results` list of the `__main__` loop in JSON mode: one entry per
token whose parse shows any phase evidence; tokens without evidence are
skipped. -/
def resolvedResults (tokenLines : List (List String)) (debug_mode : Bool) :
    List (ParseResult × DebugStatus) :=
  (tokenLines.map (fun ls => parse_timeline ls debug_mode)).filter
    (fun rd => hasEvidence rd.1)

/-- JSON emission of lines 410-414 of the source: a one-element list is printed
as the single unwrapped object, anything else as an array. -/
def jsonEmit (docs : List (ParseResult × DebugStatus)) : EmitShape :=
  match docs with
  | [d] => EmitShape.single d
  | ds => EmitShape.array ds

/-- Demo line matching the `indexer_start` rule of the
logs-xray-status-duration script. -/
def dIdxStart : String := "2024-01-01T10:00:00.1Z index_worker processing msg"

/-- Demo line matching `("index_worker", "processing m")` but not
`("index_worker", "Start processing msg")`. -/
def dIdxMsg : String := "2024-01-01T10:00:00.1Z index_worker is processing message"

/-- Demo line containing "index" and "warn" but not the phase name "indexer". -/
def dIndexWarn : String := "index warn"

/-- Demo line containing the phase name "indexer" and "warn". -/
def dIndexerWarn : String := "indexer warn"

/-- Demo line containing the phase name "indexer" and "fail". -/
def dIndexerFail : String := "indexer fail"

/-- Demo line matching the `ca_start` rule. -/
def dCaStart : String :=
  "2024-01-01T10:00:00.1Z cve_applicability_service Starting CheckApplicability for url x"

/-- Demo line matching the fourth `ca_end_patterns` triple (tag SKIP). -/
def dCaPypi : String :=
  "2024-01-01T10:00:01.1Z cve_applicability_service Package type Pypi is not supported"

/-- Demo line matching the first `ca_end_patterns` triple (tag DONE). -/
def dCaDone : String :=
  "2024-01-01T10:00:02.1Z contextual_analysis from status: SCANNING to status: DONE"

/-- Demo SKIP-matching line placed later in collector order than `dCaDone`. -/
def dCaPypiLate : String :=
  "2024-01-01T10:00:03.1Z cve_applicability_service Package type Pypi is not supported"

/-- Demo line matching the `indexer_start` substrings but carrying no
parseable leading timestamp. -/
def dNoTime : String := "index_worker processing msg without timestamp"

/-- Demo corpus line carrying identifier foo.jar and one bracketed token. -/
def dFooLine : String := "load foo.jar [aaaabbbbccccdddd] ok"

/-- Demo corpus line carrying identifier bar.jar and a different token. -/
def dBarLine : String := "load bar.jar [1111222233334444] ok"

/-- Demo suspicious line whose keyword "fail" lies before its final 120
characters. -/
def dPadded : String := "indexer fail " ++ String.mk (List.replicate 120 'x')

/-- Demo line whose leading prefix matches the timestamp regex shape but whose
fields are no valid calendar date (February 30). -/
def dBadDate : String := "2024-02-30T00:00:00.5Z oops"

theorem patSearch_eq_find (pats : List (String × String × String)) (lines : List String) :
    patSearch pats lines =
      (pats.find? (fun p => (lastTimed p.1 p.2.1 lines).isSome)).bind
        (fun p => (lastTimed p.1 p.2.1 lines).map (fun t => (t, p.2.2))) := by
  induction pats with
  | nil => rfl
  | cons p rest ih =>
    obtain ⟨s1, s2, tag⟩ := p
    cases h : lastTimed s1 s2 lines with
    | some t => simp [patSearch, List.find?, h]
    | none => simp [patSearch, List.find?, h, ih]

theorem findSome?_mid_none {α β : Type} (f : α → Option β) (l : α) (hl : f l = none)
    (pre post : List α) :
    List.findSome? f (pre ++ l :: post) = List.findSome? f (pre ++ post) := by
  induction pre with
  | nil => simp [List.findSome?_cons, hl]
  | cons a pre ih =>
    simp only [List.cons_append, List.findSome?_cons]
    cases f a <;> simp [ih]

theorem firstTimed_skip (s1 s2 : String) (pre post : List String) (l : String)
    (h1 : substr s1 l = true) (h2 : substr s2 l = true)
    (ht : extract_time l = Except.ok none) :
    firstTimed s1 s2 (pre ++ l :: post) = firstTimed s1 s2 (pre ++ post) := by
  have hfl : (fun x => if substr s1 x && substr s2 x then extractTimeOpt x else none) l
      = none := by
    show (if substr s1 l && substr s2 l then extractTimeOpt l else none) = none
    rw [h1, h2]
    simp [extractTimeOpt, ht]
  exact findSome?_mid_none _ l hfl pre post

theorem lastTimed_skip (s1 s2 : String) (pre post : List String) (l : String)
    (h1 : substr s1 l = true) (h2 : substr s2 l = true)
    (ht : extract_time l = Except.ok none) :
    lastTimed s1 s2 (pre ++ l :: post) = lastTimed s1 s2 (pre ++ post) := by
  unfold lastTimed
  rw [List.reverse_append, List.reverse_cons, List.reverse_append]
  rw [List.append_assoc, List.singleton_append]
  exact firstTimed_skip s1 s2 post.reverse pre.reverse l h1 h2 ht

theorem mem_insertNew (acc : List String) (x y : String) :
    y ∈ insertNew acc x ↔ y ∈ acc ∨ y = x := by
  unfold insertNew
  by_cases h : x ∈ acc
  · simp only [if_pos h]
    constructor
    · exact Or.inl
    · rintro (hy | rfl)
      · exact hy
      · exact h
  · simp [if_neg h]

theorem mem_foldl_insertNew (toks : List String) :
    ∀ (acc : List String) (y : String),
      y ∈ toks.foldl insertNew acc ↔ y ∈ acc ∨ y ∈ toks := by
  induction toks with
  | nil => intro acc y; simp
  | cons t ts ih =>
    intro acc y
    simp only [List.foldl_cons]
    rw [ih, mem_insertNew, List.mem_cons]
    tauto

theorem find_step_mem (artifact : String) (corpus : List String) :
    ∀ (acc : List String) (y : String),
      y ∈ corpus.foldl
          (fun acc l =>
            if substr artifact l then (extractTokens l.toList).foldl insertNew acc else acc)
          acc ↔
        y ∈ acc ∨ ∃ l, l ∈ corpus ∧ substr artifact l = true ∧ y ∈ extractTokens l.toList := by
  induction corpus with
  | nil => intro acc y; simp
  | cons c cs ih =>
    intro acc y
    simp only [List.foldl_cons]
    rw [ih]
    by_cases h : substr artifact c
    · simp only [if_pos h, mem_foldl_insertNew, List.mem_cons]
      constructor
      · rintro ((hy | hy) | ⟨l, hl, hs, hy⟩)
        · exact Or.inl hy
        · exact Or.inr ⟨c, Or.inl rfl, h, hy⟩
        · exact Or.inr ⟨l, Or.inr hl, hs, hy⟩
      · rintro (hy | ⟨l, (rfl | hl), hs, hy⟩)
        · exact Or.inl (Or.inl hy)
        · exact Or.inl (Or.inr hy)
        · exact Or.inr ⟨l, hl, hs, hy⟩
    · simp only [if_neg h, List.mem_cons]
      constructor
      · rintro (hy | ⟨l, hl, hs, hy⟩)
        · exact Or.inl hy
        · exact Or.inr ⟨l, Or.inr hl, hs, hy⟩
      · rintro (hy | ⟨l, (rfl | hl), hs, hy⟩)
        · exact Or.inl hy
        · exact absurd hs (by simpa using h)
        · exact Or.inr ⟨l, hl, hs, hy⟩


/-- C1 (amended): the overall run status is `determine_status` applied to the
overall start (earliest present phase start) and overall end (latest present
phase end) with no status tag and no fallback text, so it is NOT_STARTED when
no phase start exists, DONE when both overall start and overall end exist, and
always INCOMPLETE when only the overall start exists; FAILED, WARNING and
ABORTED are unreachable for the overall status. -/
theorem spec_c1_overall_status (r : ParseResult) :
    overall_status r =
      (match overallStart r, overallEnd r with
       | none, _ => "NOT_STARTED"
       | some _, none => "INCOMPLETE"
       | some _, some _ => "DONE") := by
  cases h1 : overallStart r <;> cases h2 : overallEnd r <;>
    simp [overall_status, determine_status, h1, h2]

/-- C1 counterexample: on a run with an indexer start, no end, and a
suspicious "indexer fail" line, the fallback suspicious-line path (the
per-phase rule the claim appeals to) yields FAILED, yet the program's overall
status is INCOMPLETE — the overall call passes no fallback text, so the
claimed FAILED/WARNING/ABORTED outcomes are not produced. -/
theorem spec_c1_counterexample :
    overall_status (parse_timeline [dIdxStart, dIndexerFail] false).1 = "INCOMPLETE" ∧
    determine_status (parse_timeline [dIdxStart, dIndexerFail] false).1.indexer_start
      (parse_timeline [dIdxStart, dIndexerFail] false).1.indexer_end none
      (some ((parse_timeline [dIdxStart, dIndexerFail] false).2.indexer)) = "FAILED" ∧
    (overallStart (parse_timeline [dIdxStart, dIndexerFail] false).1).isSome = true ∧
    overallEnd (parse_timeline [dIdxStart, dIndexerFail] false).1 = none := by
  refine ⟨by decide, by decide, by decide, by decide⟩

/-- C2 (amended): the two `parse_timeline` copies agree, for every line list
and debug flag, on the whole debug-status map and on every result component
except `indexer_start` and `analysis_start`, whose start patterns are the
only textual difference between the two scripts. -/
theorem spec_c2_shared_core (lines : List String) (debug_mode : Bool) :
    (parse_timeline lines debug_mode).2 = (parse_timelineSST lines debug_mode).2 ∧
    (parse_timeline lines debug_mode).1.indexer_end =
      (parse_timelineSST lines debug_mode).1.indexer_end ∧
    (parse_timeline lines debug_mode).1.persist_start =
      (parse_timelineSST lines debug_mode).1.persist_start ∧
    (parse_timeline lines debug_mode).1.persist_end =
      (parse_timelineSST lines debug_mode).1.persist_end ∧
    (parse_timeline lines debug_mode).1.analysis_end =
      (parse_timelineSST lines debug_mode).1.analysis_end ∧
    (parse_timeline lines debug_mode).1.ca_start =
      (parse_timelineSST lines debug_mode).1.ca_start ∧
    (parse_timeline lines debug_mode).1.ca_end =
      (parse_timelineSST lines debug_mode).1.ca_end ∧
    (parse_timeline lines debug_mode).1.ca_end_status =
      (parse_timelineSST lines debug_mode).1.ca_end_status ∧
    (parse_timeline lines debug_mode).1.exposure_start =
      (parse_timelineSST lines debug_mode).1.exposure_start ∧
    (parse_timeline lines debug_mode).1.exposure_end =
      (parse_timelineSST lines debug_mode).1.exposure_end ∧
    (parse_timeline lines debug_mode).1.exposure_end_status =
      (parse_timelineSST lines debug_mode).1.exposure_end_status :=
  ⟨rfl, rfl, rfl, rfl, rfl, rfl, rfl, rfl, rfl, rfl, rfl⟩

/-- C2 counterexample: a line matching `("index_worker", "processing m")` but
not `("index_worker", "Start processing msg")` makes the two `parse_timeline`
functions return different pairs, so they are not extensionally equal. -/
theorem spec_c2_counterexample :
    parse_timeline [dIdxMsg] false ≠ parse_timelineSST [dIdxMsg] false := by decide

/-- C3: for the `ca` and `exposure` end detection the ordered pattern table is
iterated pattern-by-pattern: the search equals "first triple in priority order
whose reverse scan yields a timed match, paired with that match and the
triple's status tag"; concretely, on a list where a DONE-matching line
precedes a SKIP-matching line in collector order, the DONE triple wins even
though the SKIP triple's line occurs later. -/
theorem spec_c3_pattern_priority :
    (∀ lines : List String, lines.all lineSafe = true →
      patSearch ca_end_patterns lines =
        (ca_end_patterns.find? (fun p => (lastTimed p.1 p.2.1 lines).isSome)).bind
          (fun p => (lastTimed p.1 p.2.1 lines).map (fun t => (t, p.2.2))) ∧
      patSearch exposure_end_patterns lines =
        (exposure_end_patterns.find? (fun p => (lastTimed p.1 p.2.1 lines).isSome)).bind
          (fun p => (lastTimed p.1 p.2.1 lines).map (fun t => (t, p.2.2)))) ∧
    patSearch ca_end_patterns [dCaDone, dCaPypiLate] =
      some (⟨2024, 1, 1, 10, 0, 2, 100000⟩, "DONE") ∧
    lastTimed "cve_applicability_service" "Package type Pypi is not supported"
      [dCaDone, dCaPypiLate] = some ⟨2024, 1, 1, 10, 0, 3, 100000⟩ :=
  ⟨fun lines _ => ⟨patSearch_eq_find _ lines, patSearch_eq_find _ lines⟩, by decide, by decide⟩

/-- Concrete instantiation of the C3 property on the two-line demo list. -/
theorem spec_c3_witness :
    ([dCaDone, dCaPypiLate].all lineSafe = true) ∧
    patSearch ca_end_patterns [dCaDone, dCaPypiLate] =
      (ca_end_patterns.find?
        (fun p => (lastTimed p.1 p.2.1 [dCaDone, dCaPypiLate]).isSome)).bind
        (fun p => (lastTimed p.1 p.2.1 [dCaDone, dCaPypiLate]).map (fun t => (t, p.2.2))) :=
  ⟨by decide, (spec_c3_pattern_priority.1 [dCaDone, dCaPypiLate] (by decide)).1⟩

/-- C4: every simple two-substring rule takes the start from the first line in
collector order containing both substrings with a parseable leading timestamp
and the end from the first such line in reverse collector order, and a line
containing both substrings but lacking a parseable timestamp is passed over
without stopping the scan.  (A line whose leading shape matches the regex but
is no valid date-time instead raises in the source; see the C7 theorems.) -/
theorem spec_c4_simple_rules :
    (∀ (lines : List String) (debug_mode : Bool), lines.all lineSafe = true →
      (parse_timeline lines debug_mode).1.indexer_start =
        firstTimed "index_worker" "processing m" lines ∧
      (parse_timeline lines debug_mode).1.indexer_end =
        lastTimed "index_worker" "has completed to process message" lines ∧
      (parse_timeline lines debug_mode).1.persist_start =
        firstTimed "persist_worker" "is processing message from persist" lines ∧
      (parse_timeline lines debug_mode).1.persist_end =
        lastTimed "persist_worker" "has completed to process message" lines ∧
      (parse_timeline lines debug_mode).1.analysis_start =
        firstTimed "analysis_worker" "processing msg" lines ∧
      (parse_timeline lines debug_mode).1.analysis_end =
        lastTimed "analysis_worker" "has completed to analyze the component" lines ∧
      (parse_timeline lines debug_mode).1.ca_start =
        firstTimed "cve_applicability_service" "Starting CheckApplicability for url" lines ∧
      (parse_timeline lines debug_mode).1.exposure_start =
        firstTimed "exposures_service" "Exposures scan started after SCA scan" lines) ∧
    (∀ (s1 s2 : String) (pre post : List String) (l : String),
      substr s1 l = true → substr s2 l = true → extract_time l = Except.ok none →
      firstTimed s1 s2 (pre ++ l :: post) = firstTimed s1 s2 (pre ++ post) ∧
      lastTimed s1 s2 (pre ++ l :: post) = lastTimed s1 s2 (pre ++ post)) :=
  ⟨fun _ _ _ => ⟨rfl, rfl, rfl, rfl, rfl, rfl, rfl, rfl⟩,
   fun s1 s2 pre post l h1 h2 ht =>
     ⟨firstTimed_skip s1 s2 pre post l h1 h2 ht, lastTimed_skip s1 s2 pre post l h1 h2 ht⟩⟩

/-- Concrete instantiation of the C4 property: the field characterisation on a
one-line list, and skipping of a both-substrings line without a timestamp. -/
theorem spec_c4_witness :
    ([dIdxStart].all lineSafe = true) ∧
    (parse_timeline [dIdxStart] false).1.indexer_start =
      firstTimed "index_worker" "processing m" [dIdxStart] ∧
    firstTimed "index_worker" "processing m" ([] ++ dNoTime :: [dIdxStart]) =
      firstTimed "index_worker" "processing m" ([] ++ [dIdxStart]) :=
  ⟨by decide, (spec_c4_simple_rules.1 [dIdxStart] false (by decide)).1,
   (spec_c4_simple_rules.2 "index_worker" "processing m" [] [dIdxStart] dNoTime
     (by decide) (by decide) rfl).1⟩

/-- C5 (amended): with a start and no end, the status follows the fallback
text with precedence FAILED (contains "fail"/"failed") over WARNING (contains
"warn"/"skip"/"not found") over ABORTED (contains "abort") over INCOMPLETE;
and a token with an indexer start line, no indexer end line, and a later line
containing both "indexer" and "warn" resolves the indexer phase to WARNING
(the fallback scan selects lines containing the phase name "indexer", not the
bare substring "index"). -/
theorem spec_c5_fallback_precedence :
    (∀ (t : Timestamp) (d : String), asciiStr d = true →
      determine_status (some t) none none (some d) =
        (if substr "fail" (lowerStr d) || substr "failed" (lowerStr d) then "FAILED"
         else if substr "warn" (lowerStr d) || substr "skip" (lowerStr d) ||
             substr "not found" (lowerStr d) then "WARNING"
         else if substr "abort" (lowerStr d) then "ABORTED"
         else "INCOMPLETE")) ∧
    determine_status (parse_timeline [dIdxStart, dIndexerWarn] false).1.indexer_start
      (parse_timeline [dIdxStart, dIndexerWarn] false).1.indexer_end none
      (some ((parse_timeline [dIdxStart, dIndexerWarn] false).2.indexer)) = "WARNING" := by
  refine ⟨fun t d _ => ?_, by decide⟩
  by_cases hd : d = ""
  · subst hd; rfl
  · simp only [determine_status, if_neg hd]

/-- Concrete instantiation of the C5 fallback-precedence rule. -/
theorem spec_c5_witness :
    (asciiStr "indexer warn" = true) ∧
    determine_status (some ⟨2024, 1, 1, 0, 0, 0, 0⟩) none none (some "indexer warn") =
      "WARNING" := by
  refine ⟨by decide, ?_⟩
  rw [spec_c5_fallback_precedence.1 ⟨2024, 1, 1, 0, 0, 0, 0⟩ "indexer warn" (by decide)]
  decide

/-- C5 counterexample: a later line containing "index" and "warn" but not the
phase name "indexer" is never selected by the fallback scan, and the indexer
phase resolves to INCOMPLETE, not WARNING, contrary to the claim's scenario. -/
theorem spec_c5_counterexample :
    substr "index" dIndexWarn = true ∧ substr "warn" dIndexWarn = true ∧
    (parse_timeline [dIdxStart, dIndexWarn] false).1.indexer_start =
      some ⟨2024, 1, 1, 10, 0, 0, 100000⟩ ∧
    (parse_timeline [dIdxStart, dIndexWarn] false).1.indexer_end = none ∧
    determine_status (parse_timeline [dIdxStart, dIndexWarn] false).1.indexer_start
      (parse_timeline [dIdxStart, dIndexWarn] false).1.indexer_end none
      (some ((parse_timeline [dIdxStart, dIndexWarn] false).2.indexer)) = "INCOMPLETE" := by
  refine ⟨by decide, by decide, by decide, by decide, by decide⟩

/-- C6: with both timestamps present the taxonomy status is determined solely
by the recorded status tag — FAILED to FAILED, SKIP to NOT_SUPPORTED, ABORTED
to ABORTED, anything else (including no tag) to DONE; and a `ca` phase ended
by the `("cve_applicability_service", "Package type Pypi is not supported")`
pattern records tag SKIP and resolves to NOT_SUPPORTED. -/
theorem spec_c6_tag_mapping :
    (∀ (s e : Timestamp) (d : Option String) (tag : String),
      determine_status (some s) (some e) (some tag) d =
        (if tag = "FAILED" then "FAILED"
         else if tag = "SKIP" then "NOT_SUPPORTED"
         else if tag = "ABORTED" then "ABORTED"
         else "DONE")) ∧
    (∀ (s e : Timestamp) (d : Option String),
      determine_status (some s) (some e) none d = "DONE") ∧
    (parse_timeline [dCaStart, dCaPypi] false).1.ca_end_status = some "SKIP" ∧
    determine_status (parse_timeline [dCaStart, dCaPypi] false).1.ca_start
      (parse_timeline [dCaStart, dCaPypi] false).1.ca_end
      (parse_timeline [dCaStart, dCaPypi] false).1.ca_end_status
      (some ((parse_timeline [dCaStart, dCaPypi] false).2.ca)) = "NOT_SUPPORTED" :=
  ⟨fun s e d tag => rfl, fun s e d => rfl, by decide, by decide⟩

/-- C7 (amended): for a line whose leading prefix matches the timestamp shape
and denotes a valid calendar date-time, the parser returns a timestamp whose
microsecond field is the first three fractional digits (right-padded with
zeros) times 1000; for a line not matching the shape it returns absence, not
an error; and for a shape-matching line with invalid date-time fields it
raises (modelled as `Except.error`) instead of returning. -/
theorem spec_c7_time_extraction :
    (∀ l : String, matchShape l.toList = none → extract_time l = Except.ok none) ∧
    (∀ (l : String) (sh : RegexShape), matchShape l.toList = some sh →
      validDate sh = true →
      extract_time l = Except.ok (some (mkTs sh)) ∧
        (mkTs sh).microsecond = ms3 sh * 1000) ∧
    (∀ (l : String) (sh : RegexShape), matchShape l.toList = some sh →
      validDate sh = false → extract_time l = Except.error ()) ∧
    extract_time "2024-01-01T10:00:00.1Z x" =
      Except.ok (some ⟨2024, 1, 1, 10, 0, 0, 100000⟩) ∧
    extract_time "2024-01-01T10:00:00.12345Z x" =
      Except.ok (some ⟨2024, 1, 1, 10, 0, 0, 123000⟩) ∧
    extract_time "hello" = Except.ok none := by
  refine ⟨fun l h => ?_, fun l sh h hv => ⟨?_, rfl⟩, fun l sh h hv => ?_, rfl, rfl, rfl⟩
  · unfold extract_time; rw [h]
  · unfold extract_time; rw [h]; simp [hv]
  · unfold extract_time; rw [h]; simp [hv]

/-- Concrete instantiation of the C7 valid-shape case. -/
theorem spec_c7_witness :
    extract_time "2024-01-01T10:00:00.1Z x" =
      Except.ok (some (mkTs ⟨2024, 1, 1, 10, 0, 0, ['1']⟩)) :=
  (spec_c7_time_extraction.2.1 "2024-01-01T10:00:00.1Z x" ⟨2024, 1, 1, 10, 0, 0, ['1']⟩
    (by decide) (by decide)).1

/-- C7 counterexample: "2024-02-30T00:00:00.5Z oops" matches the leading
shape, yet the parser neither returns a timestamp nor absence — `strptime`
raises on February 30. -/
theorem spec_c7_counterexample :
    (matchShape dBadDate.toList).isSome = true ∧ extract_time dBadDate = Except.error () :=
  ⟨by decide, rfl⟩

/-- C8: a token is discovered for an artifact exactly when some corpus line
contains the artifact identifier as a substring and carries the bracketed
16-lower-hex token; on the two-line demo corpus the query for "foo.jar"
returns exactly the token co-occurring with it and never the token of the
"bar.jar" line. -/
theorem spec_c8_correlation :
    (∀ (corpus : List String) (artifact tok : String),
      tok ∈ find_trace_ids corpus artifact ↔
        ∃ l, l ∈ corpus ∧ substr artifact l = true ∧ tok ∈ extractTokens l.toList) ∧
    find_trace_ids [dFooLine, dBarLine] "foo.jar" = ["aaaabbbbccccdddd"] ∧
    substr "foo.jar" dBarLine = false :=
  ⟨fun corpus artifact tok => by
      unfold find_trace_ids
      rw [find_step_mem artifact corpus [] tok]
      simp,
   by decide, by decide⟩

/-- Concrete instantiation of the C8 membership characterisation. -/
theorem spec_c8_witness :
    "aaaabbbbccccdddd" ∈ find_trace_ids [dFooLine, dBarLine] "foo.jar" :=
  (spec_c8_correlation.1 [dFooLine, dBarLine] "foo.jar" "aaaabbbbccccdddd").mpr
    ⟨dFooLine, by decide, by decide, by decide⟩

/-- C9: in JSON mode, a run whose token loop produced exactly one resolved
result emits a single unwrapped object, and a run with two or more resolved
results emits an array of them. -/
theorem spec_c9_json_shape :
    (∀ (tokenLines : List (List String)) (debug_mode : Bool)
        (x : ParseResult × DebugStatus),
      resolvedResults tokenLines debug_mode = [x] →
      jsonEmit (resolvedResults tokenLines debug_mode) = EmitShape.single x) ∧
    (∀ (tokenLines : List (List String)) (debug_mode : Bool)
        (x y : ParseResult × DebugStatus) (rest : List (ParseResult × DebugStatus)),
      resolvedResults tokenLines debug_mode = x :: y :: rest →
      jsonEmit (resolvedResults tokenLines debug_mode) =
        EmitShape.array (x :: y :: rest)) :=
  ⟨fun _ _ _ h => by rw [h]; rfl, fun _ _ _ _ _ h => by rw [h]; rfl⟩

/-- Concrete instantiation of the C9 emission shapes: one resolved token gives
the unwrapped object, two give the array. -/
theorem spec_c9_witness :
    jsonEmit (resolvedResults [[dIdxStart]] false) =
      EmitShape.single (parse_timeline [dIdxStart] false) ∧
    jsonEmit (resolvedResults [[dIdxStart], [dCaPypi]] false) =
      EmitShape.array [parse_timeline [dIdxStart] false, parse_timeline [dCaPypi] false] :=
  ⟨spec_c9_json_shape.1 [[dIdxStart]] false (parse_timeline [dIdxStart] false) (by decide),
   spec_c9_json_shape.2 [[dIdxStart], [dCaPypi]] false (parse_timeline [dIdxStart] false)
     (parse_timeline [dCaPypi] false) [] (by decide)⟩

/-- C10: each phase's stored fallback value is either the literal "INCOMPLETE"
or the final 120 characters of the stripped most recent phase-named suspicious
line; and on a line whose "fail" keyword lies before its final 120 characters,
the line is selected, the stored suffix contains no keyword, and the status
inference — which sees only the stored suffix — returns INCOMPLETE. -/
theorem spec_c10_debug_truncation :
    (∀ (lines : List String) (phase : String),
      debugFor phase lines = "INCOMPLETE" ∨
        ∃ l, (lines.filter (fun l2 => substr phase (lowerStr l2))).reverse.find? suspicious =
            some l ∧
          l ∈ lines ∧ substr phase (lowerStr l) = true ∧ suspicious l = true ∧
          debugFor phase lines = last120 (strip l)) ∧
    substr "fail" (lowerStr dPadded) = true ∧
    (parse_timeline [dIdxStart, dPadded] false).2.indexer =
      String.mk (List.replicate 120 'x') ∧
    substr "fail" (lowerStr ((parse_timeline [dIdxStart, dPadded] false).2.indexer)) = false ∧
    determine_status (parse_timeline [dIdxStart, dPadded] false).1.indexer_start
      (parse_timeline [dIdxStart, dPadded] false).1.indexer_end none
      (some ((parse_timeline [dIdxStart, dPadded] false).2.indexer)) = "INCOMPLETE" := by
  refine ⟨fun lines phase => ?_, by decide, by decide, by decide, by decide⟩
  cases h : (lines.filter (fun l2 => substr phase (lowerStr l2))).reverse.find? suspicious with
  | none => exact Or.inl (by simp [debugFor, h])
  | some l =>
    refine Or.inr ⟨l, rfl, ?_, ?_, List.find?_some h, by simp [debugFor, h]⟩
    · have hmem := List.mem_of_find?_eq_some h
      rw [List.mem_reverse] at hmem
      exact (List.mem_filter.mp hmem).1
    · have hmem := List.mem_of_find?_eq_some h
      rw [List.mem_reverse] at hmem
      exact (List.mem_filter.mp hmem).2
